import Mathlib

/-!
Shallow embedding of `src/streamlit_app.py` (the whole repository is this one
script). The script runs top to bottom on every interaction; each Streamlit
display call is modelled as an `Event` appended to a trace, and the three
possible ways a run can end (reaching the end of the script, `st.stop`, or an
uncaught Python exception propagating out) are the three `RunEnd` constructors.

External effects are parameters of the run, gathered in `Env`:
the secret store (`st.secrets` lookup), the outcome of each network-client
constructor (`GoogleGenerativeAIEmbeddings`, `Chroma`,
`ChatGoogleGenerativeAI`), the behaviour of the `qa_chain` pipeline call as a
function of the query string, and the string returned by `st.text_input`.
-/

/-- A retrieved chunk as consumed by the script: `doc.metadata` (modelled as
its rendered string form, since the script only interpolates it into an
f-string) and `doc.page_content`. -/
structure Doc where
  metadata : String
  page_content : String
  deriving Repr, DecidableEq

/-- The dictionary returned by `qa_chain`: the fields `result` and
`source_documents` read by the script. -/
structure QAResponse where
  result : String
  source_documents : List Doc
  deriving Repr, DecidableEq

/-- Outcome of the `qa_chain` call on a given query: a response, or a raised
exception carrying its message string. -/
inductive PipelineOutcome where
  | ok (resp : QAResponse)
  | raises (msg : String)
  deriving Repr, DecidableEq

/-- One Streamlit display call, in the order the script issues them. An
`expanderOpen` marks the start of a collapsible section (`st.expander`). -/
inductive Event where
  | title (s : String)
  | markdown (s : String)
  | error (s : String)
  | write (s : String)
  | subheader (s : String)
  | spinner (s : String)
  | expanderOpen (s : String)
  | header (s : String)
  deriving Repr, DecidableEq

/-- How a run of the script ends: fell off the end, `st.stop()`, or an
uncaught exception propagated (its message recorded). -/
inductive RunEnd where
  | completed
  | stopped
  | crashed (msg : String)
  deriving Repr, DecidableEq

/-- The three network clients the script constructs. -/
inductive Client where
  | embeddingsClient
  | chromaClient
  | llmClient
  deriving Repr, DecidableEq

/-- The external world of one script run. `secrets` models `st.secrets`
lookup (`none` = the key is absent, i.e. `KeyError`); each `*Init` field is
the outcome of the corresponding constructor call (`Except.error msg` = it
raised with message `msg`); `qaChain` is the pipeline behaviour; `queryInput`
is what `st.text_input` returns. -/
structure Env where
  secrets : String → Option String
  embeddingsInit : Except String Unit
  chromaInit : Except String Unit
  llmInit : Except String Unit
  qaChain : String → PipelineOutcome
  queryInput : String

/-- Result of one run: the display trace, which constructors were invoked,
the exact strings passed to `qa_chain`, the retriever configuration that was
built (if execution got that far), and how the run ended. -/
structure RunResult where
  events : List Event
  attempts : List Client
  pipelineCalls : List String
  retrieverUsed : Option (String × Nat × Nat)
  ending : RunEnd
  deriving Repr

/-- `vector_store.as_retriever(search_type="mmr", search_kwargs={"k": 3,
"lambda_mult": 1})` — the search type, `k`, and `lambda_mult` passed at
line 56-59 of the script. -/
def retriever : String × Nat × Nat := ("mmr", 3, 1)

/-- `st.title` and the introductory `st.markdown` (lines 17-21). -/
def preEvents : List Event :=
  [Event.title "ITC Sustainability Q&A App",
   Event.markdown "Ask questions about ITC sustainability efforts in 2024."]

/-- The sidebar block (lines 106-126). -/
def sidebarEvents : List Event :=
  [Event.header "About",
   Event.markdown "This app is built using Streamlit, LangChain, Google Gemini and Chroma.",
   Event.header "Instructions",
   Event.markdown "Enter a question, wait for the answer, check the sources."]

/-- The footer (lines 129-130). -/
def footerEvents : List Event :=
  [Event.markdown "---",
   Event.markdown "Built with love using Streamlit | Powered by xAI"]

/-- The `st.error` message shown when `GOOGLE_API_KEY` is absent (line 27). -/
def apiKeyMissingMsg : String :=
  "Google API key not found in Streamlit secrets. Please add GOOGLE_API_KEY in the Space secrets settings."

/-- The `st.write` hint shown when the Chroma constructor raises (line 50). -/
def chromaHintMsg : String :=
  "Ensure the chroma_db directory contains all necessary files (chroma.sqlite3, data_level0.bin, etc.)."

/-- `doc.page_content[:200]` followed by the literal `"..."` appended by the
f-string at line 97 — the ellipsis is part of the format string, appended
unconditionally. -/
def contentPreview (s : String) : String := s.take 200 ++ "..."

/-- The events rendered for one source document (lines 95-97): an expander
labelled `Source Document` containing the metadata line and the content
preview line. -/
def docEvents (doc : Doc) : List Event :=
  [Event.expanderOpen "Source Document",
   Event.write ("**Metadata**: " ++ doc.metadata),
   Event.write ("**Content Preview**: " ++ contentPreview doc.page_content)]

/-- Lines 82-103: `if query:` (Python truthiness of a string = non-empty),
the spinner, the `qa_chain` call in try/except, and the result display.
Returns the events of the block and the list of queries passed to
`qa_chain`. -/
def queryBlock (qaChain : String → PipelineOutcome) (query : String) :
    List Event × List String :=
  if query = "" then ([], [])
  else
    match qaChain query with
    | PipelineOutcome.ok resp =>
      (Event.spinner "Generating response..." ::
       Event.subheader "Answer" ::
       Event.write resp.result ::
       Event.subheader "Sources" ::
       (if resp.source_documents.isEmpty then
          [Event.write "No source documents found."]
        else
          resp.source_documents.flatMap docEvents),
       [query])
    | PipelineOutcome.raises e =>
      ([Event.spinner "Generating response...",
        Event.error ("An error occurred while processing the query: " ++ e),
        Event.write "Please try again or check the Chroma database and API key."],
       [query])

/-- One full top-to-bottom run of `streamlit_app.py`.

Line-by-line correspondence:
* lines 24-28: look up `GOOGLE_API_KEY` in `st.secrets`; on `KeyError` show
  `st.error` and `st.stop()` — nothing after runs, no constructor is called;
* lines 31-38: construct `GoogleGenerativeAIEmbeddings` inside try/except; on
  exception show `st.error` and `st.stop()`;
* lines 41-53: construct `Chroma` inside try/except (within the cached
  `load_vector_store`); on exception show `st.error`, an `st.write` hint, and
  `st.stop()`;
* lines 56-59: build the retriever with its fixed search configuration;
* lines 62-65: construct `ChatGoogleGenerativeAI` with NO try/except — if it
  raises, the exception propagates uncaught and the run ends `crashed`;
* lines 76-103: the query input and `queryBlock`;
* lines 106-130: sidebar and footer, rendered whenever the run reaches them. -/
def runApp (env : Env) : RunResult :=
  match env.secrets "GOOGLE_API_KEY" with
  | none =>
    { events := preEvents ++ [Event.error apiKeyMissingMsg],
      attempts := [],
      pipelineCalls := [],
      retrieverUsed := none,
      ending := RunEnd.stopped }
  | some _API_KEY =>
    match env.embeddingsInit with
    | Except.error e =>
      { events := preEvents ++ [Event.error ("Failed to initialize embeddings: " ++ e)],
        attempts := [Client.embeddingsClient],
        pipelineCalls := [],
        retrieverUsed := none,
        ending := RunEnd.stopped }
    | Except.ok _ =>
      match env.chromaInit with
      | Except.error e =>
        { events := preEvents ++
            [Event.error ("Failed to load Chroma vector store: " ++ e),
             Event.write chromaHintMsg],
          attempts := [Client.embeddingsClient, Client.chromaClient],
          pipelineCalls := [],
          retrieverUsed := none,
          ending := RunEnd.stopped }
      | Except.ok _ =>
        match env.llmInit with
        | Except.error e =>
          { events := preEvents,
            attempts := [Client.embeddingsClient, Client.chromaClient, Client.llmClient],
            pipelineCalls := [],
            retrieverUsed := some retriever,
            ending := RunEnd.crashed e }
        | Except.ok _ =>
          let qb := queryBlock env.qaChain env.queryInput
          { events := preEvents ++ qb.1 ++ sidebarEvents ++ footerEvents,
            attempts := [Client.embeddingsClient, Client.chromaClient, Client.llmClient],
            pipelineCalls := qb.2,
            retrieverUsed := some retriever,
            ending := RunEnd.completed }

/-- `true` exactly on `st.error` events. -/
def isErrorEvent : Event → Bool
  | Event.error _ => true
  | _ => false

/-! ## Concrete environments for witnesses and counterexamples -/

/-- A secret store holding only the required key. -/
def okSecrets : String → Option String :=
  fun k => if k = "GOOGLE_API_KEY" then some "key123" else none

/-- A fully healthy environment: secret present, all constructors succeed,
the pipeline answers "A" with one source document, empty query input. -/
def envBase : Env :=
  { secrets := okSecrets,
    embeddingsInit := Except.ok (),
    chromaInit := Except.ok (),
    llmInit := Except.ok (),
    qaChain := fun _ =>
      PipelineOutcome.ok
        { result := "A",
          source_documents := [{ metadata := "page: 1", page_content := "doc1 text" }] },
    queryInput := "" }

/-- Environment in which the secret store is empty. -/
def envNoSecret : Env := { envBase with secrets := fun _ => none }

/-- Environment in which the embeddings constructor raises. -/
def envEmbFails : Env := { envBase with embeddingsInit := Except.error "boom" }

/-- Environment in which the chat-model constructor raises. -/
def envLlmFails : Env := { envBase with llmInit := Except.error "boom" }

/-- Environment in which the pipeline call raises, with a non-empty query. -/
def envQaFails : Env :=
  { envBase with qaChain := fun _ => PipelineOutcome.raises "net down",
                 queryInput := "what about 2024?" }

/-- Environment with a non-empty query and a response containing no source
documents. -/
def envNoSources : Env :=
  { envBase with
    qaChain := fun _ => PipelineOutcome.ok { result := "A", source_documents := [] },
    queryInput := "q" }

/-- Environment with a whitespace-only query. -/
def envSpaceQuery : Env := { envBase with queryInput := " " }

/-- Environment with a non-empty query and a one-document response. -/
def envOneDoc : Env := { envBase with queryInput := "q" }

/-! ## Claims -/

/-- Claim C2: if the secret store has no entry named GOOGLE_API_KEY, the
session shows the configuration error message and halts, and no network
client is constructed (and no pipeline call is made) in that run. -/
theorem C2_missing_secret_halts (env : Env)
    (h : env.secrets "GOOGLE_API_KEY" = none) :
    (runApp env).ending = RunEnd.stopped ∧
    Event.error apiKeyMissingMsg ∈ (runApp env).events ∧
    (runApp env).attempts = [] ∧
    (runApp env).pipelineCalls = [] := by
  obtain ⟨s, emb, chr, llm, qa, q⟩ := env
  simp only [Env.secrets] at h
  simp [runApp, h, preEvents]

/-- Witness for C2 at the concrete environment with an empty secret store. -/
theorem C2_missing_secret_halts_witness :
    (runApp envNoSecret).ending = RunEnd.stopped ∧
    Event.error apiKeyMissingMsg ∈ (runApp envNoSecret).events ∧
    (runApp envNoSecret).attempts = [] ∧
    (runApp envNoSecret).pipelineCalls = [] :=
  C2_missing_secret_halts envNoSecret rfl

/-- Claim C4: whenever execution reaches the retriever construction (secret
present, embeddings and Chroma constructors succeeded), the retriever built
is the fixed configuration: mmr search, k = 3, lambda_mult = 1 — regardless
of the query or the pipeline behaviour. -/
theorem C4_retriever_config (env : Env) (key : String)
    (h1 : env.secrets "GOOGLE_API_KEY" = some key)
    (h2 : env.embeddingsInit = Except.ok ())
    (h3 : env.chromaInit = Except.ok ()) :
    (runApp env).retrieverUsed = some ("mmr", 3, 1) := by
  obtain ⟨s, emb, chr, llm, qa, q⟩ := env
  simp only [Env.secrets, Env.embeddingsInit, Env.chromaInit] at h1 h2 h3
  cases llm <;> simp [runApp, h1, h2, h3, retriever]

/-- Witness for C4 at the healthy concrete environment. -/
theorem C4_retriever_config_witness :
    (runApp envBase).retrieverUsed = some ("mmr", 3, 1) :=
  C4_retriever_config envBase "key123" rfl rfl rfl

/-- Claim C5: with the empty query string, the pipeline is never invoked and
the trace holds exactly the static page (title, intro, sidebar, footer) — no
answer, no sources, no error output. -/
theorem C5_empty_query_noop (env : Env) (key : String)
    (h1 : env.secrets "GOOGLE_API_KEY" = some key)
    (h2 : env.embeddingsInit = Except.ok ())
    (h3 : env.chromaInit = Except.ok ())
    (h4 : env.llmInit = Except.ok ())
    (h5 : env.queryInput = "") :
    (runApp env).pipelineCalls = [] ∧
    (runApp env).events = preEvents ++ sidebarEvents ++ footerEvents := by
  obtain ⟨s, emb, chr, llm, qa, q⟩ := env
  simp only [Env.secrets, Env.embeddingsInit, Env.chromaInit, Env.llmInit,
    Env.queryInput] at h1 h2 h3 h4 h5
  simp [runApp, queryBlock, h1, h2, h3, h4, h5]

/-- Witness for C5 at the healthy concrete environment (empty query). -/
theorem C5_empty_query_noop_witness :
    (runApp envBase).pipelineCalls = [] ∧
    (runApp envBase).events = preEvents ++ sidebarEvents ++ footerEvents :=
  C5_empty_query_noop envBase "key123" rfl rfl rfl rfl rfl

/-- Claim C8: for every non-empty query, the exact string returned by the
text input is the one (and only) string passed to the pipeline call — no
validation, transformation, or truncation in between. -/
theorem C8_query_passed_verbatim (env : Env) (key : String)
    (h1 : env.secrets "GOOGLE_API_KEY" = some key)
    (h2 : env.embeddingsInit = Except.ok ())
    (h3 : env.chromaInit = Except.ok ())
    (h4 : env.llmInit = Except.ok ())
    (h5 : env.queryInput ≠ "") :
    (runApp env).pipelineCalls = [env.queryInput] := by
  obtain ⟨s, emb, chr, llm, qa, q⟩ := env
  simp only [Env.secrets, Env.embeddingsInit, Env.chromaInit, Env.llmInit,
    Env.queryInput] at h1 h2 h3 h4 h5
  cases hqa : qa q <;>
    simp [runApp, queryBlock, h1, h2, h3, h4, h5, hqa]

/-- Witness for C8 at a concrete environment with query "q". -/
theorem C8_query_passed_verbatim_witness :
    (runApp envOneDoc).pipelineCalls = [envOneDoc.queryInput] :=
  C8_query_passed_verbatim envOneDoc "key123" rfl rfl rfl rfl (by decide)

/-- Claim C9: a query consisting solely of whitespace is non-empty under the
guard, so the pipeline IS invoked, with that whitespace string itself. -/
theorem C9_whitespace_query_invokes (env : Env) (key : String)
    (h1 : env.secrets "GOOGLE_API_KEY" = some key)
    (h2 : env.embeddingsInit = Except.ok ())
    (h3 : env.chromaInit = Except.ok ())
    (h4 : env.llmInit = Except.ok ())
    (h5 : env.queryInput = " ") :
    (runApp env).pipelineCalls = [" "] := by
  obtain ⟨s, emb, chr, llm, qa, q⟩ := env
  simp only [Env.secrets, Env.embeddingsInit, Env.chromaInit, Env.llmInit,
    Env.queryInput] at h1 h2 h3 h4 h5
  subst h5
  cases hqa : qa " " <;>
    simp [runApp, queryBlock, h1, h2, h3, h4, hqa]

/-- Witness for C9 at the concrete environment with query " ". -/
theorem C9_whitespace_query_invokes_witness :
    (runApp envSpaceQuery).pipelineCalls = [" "] :=
  C9_whitespace_query_invokes envSpaceQuery "key123" rfl rfl rfl rfl rfl

/-- Claim C3: if the pipeline call raises on a non-empty query, the exception
is caught at the call site: the inline error banner and retry hint are shown,
the run still renders the sidebar and footer and ends `completed` (neither
stopped nor crashed), so the session accepts a new query. -/
theorem C3_pipeline_error_caught (env : Env) (key e : String)
    (h1 : env.secrets "GOOGLE_API_KEY" = some key)
    (h2 : env.embeddingsInit = Except.ok ())
    (h3 : env.chromaInit = Except.ok ())
    (h4 : env.llmInit = Except.ok ())
    (h5 : env.queryInput ≠ "")
    (h6 : env.qaChain env.queryInput = PipelineOutcome.raises e) :
    (runApp env).ending = RunEnd.completed ∧
    (runApp env).events =
      preEvents ++
      [Event.spinner "Generating response...",
       Event.error ("An error occurred while processing the query: " ++ e),
       Event.write "Please try again or check the Chroma database and API key."] ++
      sidebarEvents ++ footerEvents := by
  obtain ⟨s, emb, chr, llm, qa, q⟩ := env
  simp only [Env.secrets, Env.embeddingsInit, Env.chromaInit, Env.llmInit,
    Env.queryInput, Env.qaChain] at h1 h2 h3 h4 h5 h6
  simp [runApp, queryBlock, h1, h2, h3, h4, h5, h6]

/-- Witness for C3 at the concrete environment whose pipeline raises. -/
theorem C3_pipeline_error_caught_witness :
    (runApp envQaFails).ending = RunEnd.completed ∧
    (runApp envQaFails).events =
      preEvents ++
      [Event.spinner "Generating response...",
       Event.error ("An error occurred while processing the query: " ++ "net down"),
       Event.write "Please try again or check the Chroma database and API key."] ++
      sidebarEvents ++ footerEvents :=
  C3_pipeline_error_caught envQaFails "key123" "net down" rfl rfl rfl rfl
    (by decide) rfl

/-- Claim C6: when the pipeline succeeds with zero source documents, the
trace contains the explicit no-source-documents message and no collapsible
(expander) section at all. -/
theorem C6_no_sources_message (env : Env) (key : String) (resp : QAResponse)
    (h1 : env.secrets "GOOGLE_API_KEY" = some key)
    (h2 : env.embeddingsInit = Except.ok ())
    (h3 : env.chromaInit = Except.ok ())
    (h4 : env.llmInit = Except.ok ())
    (h5 : env.queryInput ≠ "")
    (h6 : env.qaChain env.queryInput = PipelineOutcome.ok resp)
    (h7 : resp.source_documents = []) :
    Event.write "No source documents found." ∈ (runApp env).events ∧
    ∀ t, Event.expanderOpen t ∉ (runApp env).events := by
  obtain ⟨s, emb, chr, llm, qa, q⟩ := env
  simp only [Env.secrets, Env.embeddingsInit, Env.chromaInit, Env.llmInit,
    Env.queryInput, Env.qaChain] at h1 h2 h3 h4 h5 h6
  simp [runApp, queryBlock, h1, h2, h3, h4, h5, h6, h7,
    preEvents, sidebarEvents, footerEvents]

/-- Witness for C6 at the concrete environment with an empty source list. -/
theorem C6_no_sources_message_witness :
    Event.write "No source documents found." ∈ (runApp envNoSources).events ∧
    ∀ t, Event.expanderOpen t ∉ (runApp envNoSources).events :=
  C6_no_sources_message envNoSources "key123"
    { result := "A", source_documents := [] } rfl rfl rfl rfl (by decide) rfl rfl

/-- Claim C7: on a non-empty query whose pipeline call succeeds, the trace of
the query block is, in order: the busy spinner, the Answer subheader, the
answer text, the Sources subheader, then for each retrieved chunk in sequence
one expander containing its metadata line and its content preview line. -/
theorem C7_display_order (env : Env) (key : String) (resp : QAResponse)
    (h1 : env.secrets "GOOGLE_API_KEY" = some key)
    (h2 : env.embeddingsInit = Except.ok ())
    (h3 : env.chromaInit = Except.ok ())
    (h4 : env.llmInit = Except.ok ())
    (h5 : env.queryInput ≠ "")
    (h6 : env.qaChain env.queryInput = PipelineOutcome.ok resp) :
    (runApp env).events =
      preEvents ++
      (Event.spinner "Generating response..." ::
       Event.subheader "Answer" ::
       Event.write resp.result ::
       Event.subheader "Sources" ::
       (if resp.source_documents.isEmpty then
          [Event.write "No source documents found."]
        else
          resp.source_documents.flatMap docEvents)) ++
      sidebarEvents ++ footerEvents := by
  obtain ⟨s, emb, chr, llm, qa, q⟩ := env
  simp only [Env.secrets, Env.embeddingsInit, Env.chromaInit, Env.llmInit,
    Env.queryInput, Env.qaChain] at h1 h2 h3 h4 h5 h6
  simp [runApp, queryBlock, h1, h2, h3, h4, h5, h6]

/-- Witness for C7 at the concrete environment with one source document. -/
theorem C7_display_order_witness :
    (runApp envOneDoc).events =
      preEvents ++
      (Event.spinner "Generating response..." ::
       Event.subheader "Answer" ::
       Event.write "A" ::
       Event.subheader "Sources" ::
       (if ([{ metadata := "page: 1", page_content := "doc1 text" }] : List Doc).isEmpty then
          [Event.write "No source documents found."]
        else
          ([{ metadata := "page: 1", page_content := "doc1 text" }] : List Doc).flatMap docEvents)) ++
      sidebarEvents ++ footerEvents :=
  C7_display_order envOneDoc "key123"
    { result := "A",
      source_documents := [{ metadata := "page: 1", page_content := "doc1 text" }] }
    rfl rfl rfl rfl (by decide) rfl

/-- Claim C10: for every displayed source chunk the rendered preview line is
the first 200 characters of its content with "..." appended unconditionally;
when the content has at most 200 characters the FULL content is shown,
still followed by "...". -/
theorem C10_preview_unconditional_ellipsis (env : Env) (key : String)
    (resp : QAResponse) (doc : Doc)
    (h1 : env.secrets "GOOGLE_API_KEY" = some key)
    (h2 : env.embeddingsInit = Except.ok ())
    (h3 : env.chromaInit = Except.ok ())
    (h4 : env.llmInit = Except.ok ())
    (h5 : env.queryInput ≠ "")
    (h6 : env.qaChain env.queryInput = PipelineOutcome.ok resp)
    (h7 : doc ∈ resp.source_documents) :
    Event.write ("**Content Preview**: " ++ (doc.page_content.take 200 ++ "...")) ∈
      (runApp env).events ∧
    (doc.page_content.length ≤ 200 →
      Event.write ("**Content Preview**: " ++ (doc.page_content ++ "...")) ∈
        (runApp env).events) := by
  obtain ⟨s, emb, chr, llm, qa, q⟩ := env
  simp only [Env.secrets, Env.embeddingsInit, Env.chromaInit, Env.llmInit,
    Env.queryInput, Env.qaChain] at h1 h2 h3 h4 h5 h6
  have hne : ¬ resp.source_documents.isEmpty := by
    cases hd : resp.source_documents with
    | nil => rw [hd] at h7; cases h7
    | cons a l => simp [hd]
  have hmem : Event.write ("**Content Preview**: " ++ contentPreview doc.page_content) ∈
      resp.source_documents.flatMap docEvents := by
    rw [List.mem_flatMap]
    exact ⟨doc, h7, by simp [docEvents]⟩
  constructor
  · simp only [runApp, queryBlock, h1, h2, h3, h4, h5, h6, if_neg h5, hne,
      if_neg hne]
    simp only [contentPreview] at hmem
    simp [hmem]
  · intro hlen
    have htake : doc.page_content.take 200 = doc.page_content := by
      apply String.ext
      rw [String.data_take]
      exact List.take_of_length_le hlen
    simp only [runApp, queryBlock, h1, h2, h3, h4, h5, h6, if_neg h5, hne,
      if_neg hne]
    simp only [contentPreview, htake] at hmem
    simp [hmem]

/-- Witness for C10 at the one-document environment: the content is 9
characters, so the full content appears followed by the ellipsis. -/
theorem C10_preview_unconditional_ellipsis_witness :
    Event.write ("**Content Preview**: " ++ (String.take "doc1 text" 200 ++ "...")) ∈
      (runApp envOneDoc).events ∧
    (String.length "doc1 text" ≤ 200 →
      Event.write ("**Content Preview**: " ++ ("doc1 text" ++ "...")) ∈
        (runApp envOneDoc).events) :=
  C10_preview_unconditional_ellipsis envOneDoc "key123"
    { result := "A",
      source_documents := [{ metadata := "page: 1", page_content := "doc1 text" }] }
    { metadata := "page: 1", page_content := "doc1 text" }
    rfl rfl rfl rfl (by decide) rfl (by simp)

/-- Claim C1 counterexample: at a concrete environment where the chat-model
constructor raises (secret present, embeddings and Chroma fine), the run ends
by the exception propagating (`crashed`, not `stopped` via `st.stop`) and the
trace contains NO error banner at all — contradicting the claim that every
failed constructor shows an initialization error message. -/
theorem C1_llm_failure_counterexample :
    (runApp envLlmFails).ending = RunEnd.crashed "boom" ∧
    (runApp envLlmFails).ending ≠ RunEnd.stopped ∧
    (runApp envLlmFails).events.all (fun ev => !isErrorEvent ev) = true := by
  refine ⟨rfl, by decide, rfl⟩

/-- Claim C1 (amended): the embeddings and Chroma constructors are guarded —
if either raises, the run shows its initialization error banner and halts via
`st.stop` — but the chat-model constructor is NOT guarded: if it raises, the
exception propagates uncaught, so execution still stops before any pipeline
call, yet without any app-displayed error message. -/
theorem C1_amended_init_failures (env : Env) (key : String)
    (h1 : env.secrets "GOOGLE_API_KEY" = some key) :
    (∀ e, env.embeddingsInit = Except.error e →
       (runApp env).ending = RunEnd.stopped ∧
       Event.error ("Failed to initialize embeddings: " ++ e) ∈ (runApp env).events) ∧
    (∀ e, env.embeddingsInit = Except.ok () → env.chromaInit = Except.error e →
       (runApp env).ending = RunEnd.stopped ∧
       Event.error ("Failed to load Chroma vector store: " ++ e) ∈ (runApp env).events) ∧
    (∀ e, env.embeddingsInit = Except.ok () → env.chromaInit = Except.ok () →
       env.llmInit = Except.error e →
       (runApp env).ending = RunEnd.crashed e ∧
       (runApp env).pipelineCalls = [] ∧
       ∀ ev ∈ (runApp env).events, isErrorEvent ev = false) := by
  obtain ⟨s, emb, chr, llm, qa, q⟩ := env
  simp only [Env.secrets, Env.embeddingsInit, Env.chromaInit, Env.llmInit] at h1 ⊢
  refine ⟨?_, ?_, ?_⟩
  · intro e hemb
    subst hemb
    simp [runApp, h1, preEvents]
  · intro e hemb hchr
    subst hemb
    subst hchr
    simp [runApp, h1, preEvents]
  · intro e hemb hchr hllm
    subst hemb
    subst hchr
    subst hllm
    simp [runApp, h1, preEvents, isErrorEvent]

/-- Witness for the amended C1 at the concrete environment where the
embeddings constructor raises. -/
theorem C1_amended_init_failures_witness :
    (runApp envEmbFails).ending = RunEnd.stopped ∧
    Event.error ("Failed to initialize embeddings: " ++ "boom") ∈
      (runApp envEmbFails).events :=
  (C1_amended_init_failures envEmbFails "key123" rfl).1 "boom" rfl
